import Mathlib

/-!
Verification of the extraction-and-codegen pipeline of the
dotnet-react-python-refactor scripts.

The Python sources are shallowly embedded: each relevant Python function is
translated into a Lean definition operating on `String` / `List Char`.
Regular-expression passes of the source are embedded as explicit scanners
over character lists with the same matching semantics (leftmost match,
greedy or lazy quantifier behaviour reproduced where it is observable).
Python `str.lower()` is modelled by `Char.toLower` mapped over the
characters (ASCII case mapping, which is what the source relies on for
the identifier tokens it processes).
-/

/-! ## Basic character classes (ASCII, as used by the Python regexes) -/

/-- ASCII upper-case letter, the class `[A-Z]` of the Python regexes. -/
def isUpperChar (c : Char) : Bool := decide (65 ≤ c.toNat ∧ c.toNat ≤ 90)

/-- ASCII lower-case letter, the class `[a-z]` of the Python regexes. -/
def isLowerChar (c : Char) : Bool := decide (97 ≤ c.toNat ∧ c.toNat ≤ 122)

/-- ASCII digit, the class `[0-9]`. -/
def isDigitChar (c : Char) : Bool := decide (48 ≤ c.toNat ∧ c.toNat ≤ 57)

/-- The class `[a-z0-9]` used by the second snake-case substitution. -/
def isLowerOrDigit (c : Char) : Bool := isLowerChar c || isDigitChar c

/-- Word character, the class `\w` (ASCII fragment). -/
def isWordChar (c : Char) : Bool :=
  isUpperChar c || isLowerChar c || isDigitChar c || c = '_'

/-- Whitespace, the class `\s` (ASCII fragment: space, tab, LF, CR, FF, VT). -/
def isPySpace (c : Char) : Bool :=
  c = ' ' || c = '\t' || c = '\n' || c = '\x0d' || c = '\x0c' || c = '\x0b'

/-- Python `str.lower()` on the ASCII range, applied characterwise. -/
def pyLower (s : String) : String := ⟨s.data.map Char.toLower⟩

/-! ## Substring primitives -/

/-- Does `l` start with `p`?  Models an anchored literal match. -/
def startsWithL : List Char → List Char → Bool
  | _, [] => true
  | [], _ :: _ => false
  | c :: cs, p :: ps => c = p && startsWithL cs ps

/-- Does `pat` occur as a contiguous substring of `hay`?
Models the Python `in` operator on strings and unanchored literal search. -/
def containsSub : List Char → List Char → Bool
  | [], pat => startsWithL [] pat
  | c :: rest, pat => startsWithL (c :: rest) pat || containsSub rest pat

/-- String-level wrapper of `containsSub`. -/
def containsS (hay pat : String) : Bool := containsSub hay.data pat.data

/-! ## Type Mapper (`MigrationGenerator.TYPE_MAPPINGS` / `_map_type`) -/

/-- The fixed ordered mapping table `MigrationGenerator.TYPE_MAPPINGS`:
each entry is (C# type key, Python scalar type, SQLAlchemy storage type),
in the dictionary insertion order of the source. -/
def TYPE_MAPPINGS : List (String × String × String) :=
  [ ("string", "str", "String")
  , ("int", "int", "Integer")
  , ("long", "int", "BigInteger")
  , ("bool", "bool", "Boolean")
  , ("datetime", "datetime", "DateTime")
  , ("decimal", "Decimal", "Numeric")
  , ("float", "float", "Float")
  , ("double", "float", "Float")
  , ("guid", "str", "String(36)")
  , ("byte[]", "bytes", "LargeBinary")
  , ("short", "int", "SmallInteger")
  , ("byte", "int", "SmallInteger")
  ]

/-- The lookup loop of `_map_type`: first table key that is a substring of
the (already lowered) type token wins; otherwise the default. -/
def mapTypeAux : List (String × String × String) → List Char → String × String
  | [], _ => ("str", "String")
  | (k, py, sa) :: rest, t =>
    if containsSub t k.data then (py, sa) else mapTypeAux rest t

/-- `MigrationGenerator._map_type`: lowers the C# type token and scans the
table in order; total, with default `("str", "String")`. -/
def mapType (csharp_type : String) : String × String :=
  mapTypeAux TYPE_MAPPINGS ((pyLower csharp_type).data)

/-! ## Case conversion (`MigrationGenerator._to_snake_case`) -/

/-- First substitution pass of `_to_snake_case`:
`re.sub((.)([A-Z][a-z]+), \1_\2, name)` — scan left to right; a match is
any non-newline character followed by an upper-case letter followed by a
maximal non-empty run of lower-case letters; an underscore is inserted
between the first character and the rest of the match, and scanning
resumes after the match. -/
def snakeSub1Go : Nat → List Char → List Char
  | 0, l => l
  | _ + 1, [] => []
  | _ + 1, [c] => [c]
  | fuel + 1, c :: u :: rest =>
    if c ≠ '\n' && isUpperChar u &&
        (match rest with | r :: _ => isLowerChar r | [] => false) then
      c :: '_' :: u ::
        (rest.takeWhile isLowerChar ++ snakeSub1Go fuel (rest.dropWhile isLowerChar))
    else
      c :: snakeSub1Go fuel (u :: rest)

/-- The first pass, run with enough fuel for the whole string (every
scanning step consumes at least one character, so `l.length` steps always
complete the scan). -/
def snakeSub1 (l : List Char) : List Char := snakeSub1Go l.length l

/-- Second substitution pass of `_to_snake_case`:
`re.sub(([a-z0-9])([A-Z]), \1_\2, s1)` — an underscore is inserted between
a lower-case letter or digit and an immediately following upper-case
letter; scanning resumes after the matched pair. -/
def snakeSub2 : List Char → List Char
  | [] => []
  | [c] => [c]
  | a :: b :: rest =>
    if isLowerOrDigit a && isUpperChar b then a :: '_' :: b :: snakeSub2 rest
    else a :: snakeSub2 (b :: rest)

/-- `MigrationGenerator._to_snake_case`: the two substitution passes
followed by `str.lower()`. -/
def toSnakeCase (name : String) : String :=
  ⟨(snakeSub2 (snakeSub1 name.data)).map Char.toLower⟩

/-- Python `str.endswith`. -/
def endsWithL (l tail : List Char) : Bool := startsWithL l.reverse tail.reverse

/-! ## Data model (`PropertyInfo`, `ModelInfo`, relationship records) -/

/-- The `PropertyInfo` dataclass of `generate_migration.py`. -/
structure PropertyInfo where
  name : String
  csharp_type : String
  python_type : String
  nullable : Bool := false
  is_key : Bool := false
  is_foreign_key : Bool := false
  foreign_table : Option String := none
  max_length : Option Nat := none
  is_required : Bool := false
  default_value : Option String := none
  annotations : List String := []
deriving DecidableEq

/-- One relationship dict produced by `_parse_relationships`
(keys `type`, `related_model`, `property_name`; the first field is the
value of the `type` key, renamed because `type` is a Lean keyword). -/
structure RelRecord where
  type_ : String
  related_model : String
  property_name : String
deriving DecidableEq

/-- The `ModelInfo` dataclass (the `namespace` field is renamed because
`namespace` is a Lean keyword). -/
structure ModelInfo where
  name : String
  namespace_ : String
  properties : List PropertyInfo
  base_class : Option String := none
  relationships : List RelRecord := []
  table_name : Option String := none

/-! ## Relationship Resolver (`MigrationGenerator._parse_relationships`) -/

/-- The primitive-type skip list of the single-reference loop of
`_parse_relationships`. -/
def primitiveSkip : List String :=
  ["string", "int", "bool", "DateTime", "decimal", "float", "double"]

/-- Classification of one bare single-reference property declaration
(captured type name and property name) by the second loop of
`_parse_relationships`: primitive types produce nothing; a property name
ending in `Id` is skipped as a foreign-key backing field; anything else
becomes a many-to-one record. -/
def refRelationship (type_name prop_name : String) : Option RelRecord :=
  if primitiveSkip.contains type_name then none
  else if endsWithL prop_name.data "Id".data then none
  else some ⟨"many_to_one", type_name, prop_name⟩

/-- `_parse_relationships`: the first loop turns each collection-typed
declaration (`ICollection<T>` or `List<T>`, captured as type and property
name) into a one-to-many record; the second loop classifies each bare
reference declaration with `refRelationship`; outputs are appended in
that order. -/
def parseRelationships (collectionDecls refDecls : List (String × String)) :
    List RelRecord :=
  collectionDecls.map (fun d => ⟨"one_to_many", d.1, d.2⟩)
    ++ refDecls.filterMap (fun d => refRelationship d.1 d.2)

/-! ## Template Code Generator, ORM profiles
(`_write_sqlalchemy_model`, `_write_django_model` and their helpers) -/

/-- Python `sep.join(list)`. -/
def joinSep (sep : String) : List String → String
  | [] => ""
  | [s] => s
  | s :: rest => s ++ sep ++ joinSep sep rest

/-- Concatenation of a list of strings (used to state what a sequence of
`f.write` calls produces). -/
def strConcat : List String → String
  | [] => ""
  | s :: rest => s ++ strConcat rest

/-- `MigrationGenerator._generate_sqlalchemy_column`. -/
def generateSqlalchemyColumn (prop : PropertyInfo) : String :=
  let sa_type := (mapType prop.csharp_type).2
  let parts : List String :=
    match prop.max_length with
    | some n => if n ≠ 0 then ["String(" ++ toString n ++ ")"] else [sa_type]
    | none => [sa_type]
  let args : List String := if prop.is_key then ["primary_key=True"] else []
  let parts :=
    if prop.is_foreign_key then
      match prop.foreign_table with
      | some ft =>
        if ft ≠ "" then ("ForeignKey(\"" ++ toSnakeCase ft ++ ".id\")") :: parts
        else parts
      | none => parts
    else parts
  let args := if !prop.nullable && !prop.is_key then args ++ ["nullable=False"] else args
  let args :=
    match prop.default_value with
    | some dv => if dv ≠ "" then args ++ ["default=" ++ dv] else args
    | none => args
  let args_str := joinSep ", " args
  if args_str ≠ "" then "Column(" ++ joinSep ", " parts ++ ", " ++ args_str ++ ")"
  else "Column(" ++ joinSep ", " parts ++ ")"

/-- `MigrationGenerator._generate_sqlalchemy_relationship`. -/
def generateSqlalchemyRelationship (rel : RelRecord) : String :=
  if rel.type_ == "one_to_many" then
    "relationship(\"" ++ rel.related_model ++ "\", back_populates=\""
      ++ toSnakeCase rel.property_name ++ "\")"
  else
    "relationship(\"" ++ rel.related_model ++ "\")"

/-- One property line written by `_write_sqlalchemy_model`. -/
def sqlFieldLine (prop : PropertyInfo) : String :=
  "    " ++ toSnakeCase prop.name ++ " = " ++ generateSqlalchemyColumn prop ++ "\n"

/-- One relationship line written by `_write_sqlalchemy_model`. -/
def sqlRelLine (rel : RelRecord) : String :=
  "    " ++ toSnakeCase rel.property_name ++ " = "
    ++ generateSqlalchemyRelationship rel ++ "\n"

/-- `model.table_name or self._to_snake_case(model.name)` (Python `or`
falls through on `None` and on the empty string). -/
def sqlTableName (model : ModelInfo) : String :=
  match model.table_name with
  | some t => if t ≠ "" then t else toSnakeCase model.name
  | none => toSnakeCase model.name

/-- The header lines written by `_write_sqlalchemy_model` before the
property loop. -/
def sqlHeader (model : ModelInfo) : String :=
  "class " ++ model.name ++ "(Base):\n"
    ++ "    \"\"\"Migrated from " ++ model.namespace_ ++ "." ++ model.name ++ "\"\"\"\n"
    ++ "    __tablename__ = \"" ++ sqlTableName model ++ "\"\n\n"

/-- The relationship block of `_write_sqlalchemy_model`: a blank line then
one line per relationship, written only when the list is non-empty. -/
def sqlRelPart (model : ModelInfo) : String :=
  if model.relationships.isEmpty then ""
  else "\n" ++ strConcat (model.relationships.map sqlRelLine)

/-- `MigrationGenerator._write_sqlalchemy_model`: the text written to the
output file for one model — the header writes, then the accumulating
property-line loop, then the relationship block when relationships exist,
then the trailing blank lines, exactly in the order of the `f.write`
calls of the source. -/
def writeSqlalchemyModel (model : ModelInfo) : String :=
  let s := sqlHeader model
  let s := model.properties.foldl (fun acc p => acc ++ sqlFieldLine p) s
  let s :=
    if model.relationships.isEmpty then s
    else model.relationships.foldl (fun acc r => acc ++ sqlRelLine r) (s ++ "\n")
  s ++ "\n\n"

/-- The `field_mapping` dict of `_generate_django_field`. -/
def djangoFieldMapping : List (String × String) :=
  [ ("str", "CharField"), ("int", "IntegerField"), ("bool", "BooleanField")
  , ("datetime", "DateTimeField"), ("Decimal", "DecimalField")
  , ("float", "FloatField"), ("bytes", "BinaryField") ]

/-- `MigrationGenerator._generate_django_field`. -/
def generateDjangoField (prop : PropertyInfo) : String :=
  let django_field :=
    ((djangoFieldMapping.find? (fun e => e.1 == prop.python_type)).map (fun e => e.2)).getD
      "CharField"
  let args : List String :=
    match prop.max_length with
    | some n =>
      if n ≠ 0 && django_field == "CharField" then ["max_length=" ++ toString n]
      else if django_field == "CharField" && n == 0 then ["max_length=255"]
      else []
    | none => if django_field == "CharField" then ["max_length=255"] else []
  let args :=
    if prop.python_type == "Decimal" then args ++ ["max_digits=18", "decimal_places=2"]
    else args
  let args := if prop.nullable then args ++ ["null=True", "blank=True"] else args
  let fieldArgs :=
    if prop.is_foreign_key then
      match prop.foreign_table with
      | some ft =>
        if ft ≠ "" then
          ("ForeignKey", ("\"" ++ ft ++ "\"") :: (args ++ ["on_delete=models.CASCADE"]))
        else (django_field, args)
      | none => (django_field, args)
    else (django_field, args)
  "models." ++ fieldArgs.1 ++ "(" ++ joinSep ", " fieldArgs.2 ++ ")"

/-- One field line written by `_write_django_model`. -/
def djangoFieldLine (prop : PropertyInfo) : String :=
  "    " ++ toSnakeCase prop.name ++ " = " ++ generateDjangoField prop ++ "\n"

/-- The per-property rendering decision of `_write_django_model`:
`if not prop.is_key or prop.name.lower() != "id"` a field line is written,
otherwise the property is omitted (Django creates `id` itself). -/
def djangoFieldOpt (prop : PropertyInfo) : Option String :=
  if !prop.is_key || (pyLower prop.name != "id") then some (djangoFieldLine prop)
  else none

/-- The header lines written by `_write_django_model`. -/
def djangoHeader (model : ModelInfo) : String :=
  "class " ++ model.name ++ "(models.Model):\n"
    ++ "    \"\"\"Migrated from " ++ model.namespace_ ++ "." ++ model.name ++ "\"\"\"\n\n"

/-- The optional `class Meta` block of `_write_django_model` (written when
`model.table_name` is truthy). -/
def djangoMeta (model : ModelInfo) : String :=
  match model.table_name with
  | some t =>
    if t ≠ "" then "\n    class Meta:\n        db_table = \"" ++ t ++ "\"\n" else ""
  | none => ""

/-- `MigrationGenerator._write_django_model`: header writes, then the
accumulating field loop with the id-key filter, then the Meta block, then
the trailing blank lines. -/
def writeDjangoModel (model : ModelInfo) : String :=
  let s := djangoHeader model
  let s := model.properties.foldl
    (fun acc p =>
      if !p.is_key || (pyLower p.name != "id") then acc ++ djangoFieldLine p else acc) s
  let s := s ++ djangoMeta model
  s ++ "\n\n"

/-! ## Route verb extraction (`DotNetAssessor._extract_routes`) -/

/-- Tail of a verb pattern after its closing bracket: `\s*public.*?NAME`
— a whitespace run, the literal `public`, then the method name anywhere
later (the search runs with `re.DOTALL`, so the lazy gap spans lines). -/
def pubThen (name : List Char) (l : List Char) : Bool :=
  let l2 := l.dropWhile isPySpace
  startsWithL l2 "public".data && containsSub (l2.drop 6) name

/-- Searches for a closing bracket ending `\[HttpX.*?\]` (with DOTALL any
later closing bracket is a candidate), then requires the pattern tail to
match there. -/
def closeThen (name : List Char) : List Char → Bool
  | [] => false
  | c :: rest => (c = ']' && pubThen name rest) || closeThen name rest

/-- Unanchored search for `\[Http<marker>.*?\]\s*public.*?<name>` with
`re.DOTALL`, as performed by `re.search` in `_extract_routes`. -/
def verbSearch (marker name : List Char) : List Char → Bool
  | [] => false
  | c :: rest =>
    (startsWithL (c :: rest) ("[Http".data ++ marker)
        && closeThen name ((c :: rest).drop (5 + marker.length)))
      || verbSearch marker name rest

/-- The verb-determination chain of `_extract_routes`: default GET,
overridden by the first of POST, PUT, DELETE whose pattern matches
anywhere in the controller text. -/
def extractHttpMethod (content methodName : String) : String :=
  if verbSearch "Post".data methodName.data content.data then "POST"
  else if verbSearch "Put".data methodName.data content.data then "PUT"
  else if verbSearch "Delete".data methodName.data content.data then "DELETE"
  else "GET"

/-! ## Source Reader (`DotNetAssessor._read_file`) and the migration
generator model scan (`MigrationGenerator._scan_models`) -/

/-- Size ceiling `DotNetAssessor.MAX_FILE_SIZE_BYTES` (1 MiB). -/
def MAX_FILE_SIZE_BYTES : Nat := 1 * 1024 * 1024

/-- Outcome of the OS-level accesses `_read_file` performs on one path:
`stat` may fail, the subsequent open/read may fail, or the read succeeds
and yields the decoded text (decoding itself is lenient, `errors=ignore`,
and never fails). -/
inductive FileAccess where
  | statErr (msg : String)
  | openErr (size : Nat) (msg : String)
  | readable (size : Nat) (content : String)

/-- `DotNetAssessor._read_file`: oversized files yield the empty string;
`OSError` and `PermissionError` from `stat` or from opening/reading are
caught and also yield the empty string; otherwise the text is returned.
Total — no outcome escapes as an exception. -/
def assessorReadFile : FileAccess → String
  | .statErr _ => ""
  | .openErr _ _ => ""
  | .readable size content => if size > MAX_FILE_SIZE_BYTES then "" else content

/-- Result of `Path.read_text` for one file of the `_scan_models` loop:
the decoded content, or an `OSError`-style failure (lenient decoding
cannot fail, but permission and IO errors still raise). -/
inductive FileRead where
  | ok (content : String)
  | err (msg : String)

/-- `Path.read_text` as called (unguarded) by `_scan_models`: failure is
an exception, modelled as `Except.error`. -/
def readText : FileRead → Except String String
  | .ok content => .ok content
  | .err msg => .error msg

/-- The reading structure of `MigrationGenerator._scan_models`: each file
of the scan list is read with `read_text` under no per-file handler, so
the first read error propagates out of the loop as an exception; on
success the loop yields the list of file contents (which the scan then
parses for model classes). -/
def scanModelsReads : List FileRead → Except String (List String)
  | [] => .ok []
  | f :: rest =>
    match readText f with
    | .error e => .error e
    | .ok c =>
      match scanModelsReads rest with
      | .error e => .error e
      | .ok cs => .ok (c :: cs)

/-! ## Generator configuration (`MigrationGenerator.__init__` and run
order) -/

/-- The configuration state set up by `MigrationGenerator.__init__`. -/
structure GenConfig where
  models_path : String
  target_framework : String
  output_dir : String

/-- `MigrationGenerator.__init__`: lowers the requested framework and
raises `ValueError` unless it is `sqlalchemy` or `django`. -/
def mkMigrationGenerator (models_path target_framework output_dir : String) :
    Except String GenConfig :=
  let tf := pyLower target_framework
  if tf != "sqlalchemy" && tf != "django" then
    .error ("Unsupported framework: " ++ target_framework
      ++ ". Use \x27sqlalchemy\x27 or \x27django\x27")
  else .ok ⟨models_path, tf, output_dir⟩

/-- The run order of `generate_migration.main`: the generator is
constructed (validating the framework) before `generate()` runs, and
`generate()` scans the model files before writing any artifact.  The
success value is the list of file contents the scan read — the input
from which models and artifacts are then produced. -/
def generatorRun (models_path target_framework output_dir : String)
    (files : List FileRead) : Except String (List String) :=
  match mkMigrationGenerator models_path target_framework output_dir with
  | .error e => .error e
  | .ok _ => scanModelsReads files

/-! ## Razor to JSX converter
(`RazorToJSXConverter._convert_loops` and `_convert_code_block`) -/

/-- Python `str.strip()`: remove leading and trailing whitespace. -/
def pyStrip (l : List Char) : List Char :=
  ((l.dropWhile isPySpace).reverse.dropWhile isPySpace).reverse

/-- Python `sep.join` over character lists. -/
def joinSepL (sep : List Char) : List (List Char) → List Char
  | [] => []
  | [s] => s
  | s :: rest => s ++ sep ++ joinSepL sep rest

/-- Tail of the foreach pattern after the optional `var` prefix group:
`(\w+)\s+in\s+([^)]+)\)\s*\x7b([^\x7d]+)\x7d` — item variable, the
literal `in` between whitespace runs, the collection expression up to the
closing parenthesis, optional whitespace, and a braced non-empty body.
Returns the three captured groups and the rest of the input. -/
def foreachTail (l : List Char) :
    Option (List Char × List Char × List Char × List Char) :=
  let item := l.takeWhile isWordChar
  let l1 := l.dropWhile isWordChar
  if item.isEmpty then none
  else if (l1.takeWhile isPySpace).isEmpty then none
  else
    let l2 := l1.dropWhile isPySpace
    if startsWithL l2 "in".data then
      let l3 := l2.drop 2
      if (l3.takeWhile isPySpace).isEmpty then none
      else
        let l4 := l3.dropWhile isPySpace
        let coll := l4.takeWhile (fun c => c ≠ ')')
        if coll.isEmpty then none
        else
          match l4.dropWhile (fun c => c ≠ ')') with
          | ')' :: l5 =>
            match l5.dropWhile isPySpace with
            | '\x7b' :: l6 =>
              let body := l6.takeWhile (fun c => c ≠ '\x7d')
              if body.isEmpty then none
              else
                match l6.dropWhile (fun c => c ≠ '\x7d') with
                | '\x7d' :: l7 => some (item, coll, body, l7)
                | _ => none
            | _ => none
          | _ => none
    else none

/-- Anchored match of the foreach pattern
`@foreach\s*\((?:var\s+)?(\w+)\s+in\s+([^)]+)\)\s*\x7b([^\x7d]+)\x7d`:
the greedy optional `var\s+` group is tried first and the bare
alternative is used when the rest of the pattern fails after it. -/
def matchForeachAt (l : List Char) :
    Option (List Char × List Char × List Char × List Char) :=
  if startsWithL l "@foreach".data then
    match (l.drop 8).dropWhile isPySpace with
    | '(' :: l2 =>
      let attempt :=
        if startsWithL l2 "var".data then
          let l3 := l2.drop 3
          if (l3.takeWhile isPySpace).isEmpty then none
          else foreachTail (l3.dropWhile isPySpace)
        else none
      match attempt with
      | some r => some r
      | none => foreachTail l2
    | _ => none
  else none

/-- The replacement text built by `replace_foreach`: collection and body
are stripped; the `body_with_refs` substitution of the source replaces
each occurrence of the item variable with itself and is therefore the
identity on the body. -/
def foreachRepl (item coll body : List Char) : List Char :=
  "\x7b(".data ++ pyStrip coll ++ " || []).map((".data ++ item
    ++ ", index) => (\n  <div key=\x7bindex\x7d>\n    ".data ++ pyStrip body
    ++ "\n  </div>\n))\x7d".data

/-- Scanning loop of the foreach substitution: leftmost match, replace,
continue after the matched text.  Fuel-driven; one unit of fuel per scan
position suffices because every step consumes at least one character. -/
def foreachSubGo : Nat → List Char → List Char
  | 0, l => l
  | _ + 1, [] => []
  | fuel + 1, c :: rest =>
    match matchForeachAt (c :: rest) with
    | some (item, coll, body, l2) => foreachRepl item coll body ++ foreachSubGo fuel l2
    | none => c :: foreachSubGo fuel rest

/-- Anchored match of the for-loop pattern
`@for\s*\([^)]+\)\s*\x7b[^\x7d]+\x7d`; only the rest of the input after
the match is needed because the replacement ignores the matched text. -/
def matchForAt (l : List Char) : Option (List Char) :=
  if startsWithL l "@for".data then
    match (l.drop 4).dropWhile isPySpace with
    | '(' :: l2 =>
      let inner := l2.takeWhile (fun c => c ≠ ')')
      if inner.isEmpty then none
      else
        match l2.dropWhile (fun c => c ≠ ')') with
        | ')' :: l3 =>
          match l3.dropWhile isPySpace with
          | '\x7b' :: l4 =>
            let body := l4.takeWhile (fun c => c ≠ '\x7d')
            if body.isEmpty then none
            else
              match l4.dropWhile (fun c => c ≠ '\x7d') with
              | '\x7d' :: l5 => some l5
              | _ => none
          | _ => none
        | _ => none
    | _ => none
  else none

/-- Scanning loop of the for-loop substitution: every match is replaced
by the fixed marker comment, dropping the matched text. -/
def forSubGo : Nat → List Char → List Char
  | 0, l => l
  | _ + 1, [] => []
  | fuel + 1, c :: rest =>
    match matchForAt (c :: rest) with
    | some l2 => "/* TODO: Convert @for loop to JSX */".data ++ forSubGo fuel l2
    | none => c :: forSubGo fuel rest

/-- `RazorToJSXConverter._convert_loops`: the `@foreach` substitution
pass followed by the `@for` substitution pass. -/
def convertLoops (content : String) : String :=
  let afterForeach := foreachSubGo content.data.length content.data
  ⟨forSubGo afterForeach.length afterForeach⟩

/-- Anchored match of one assignment of the code-block regex
`(?:var|string|int)\s+(\w+)\s*=\s*([^;]+);` (alternatives tried in
order; they start with distinct characters, so at most one applies). -/
def matchAssignAt (l : List Char) : Option (List Char × List Char × List Char) :=
  let kwLen : Option Nat :=
    if startsWithL l "var".data then some 3
    else if startsWithL l "string".data then some 6
    else if startsWithL l "int".data then some 3
    else none
  match kwLen with
  | none => none
  | some k =>
    let l1 := l.drop k
    if (l1.takeWhile isPySpace).isEmpty then none
    else
      let l2 := l1.dropWhile isPySpace
      let vname := l2.takeWhile isWordChar
      if vname.isEmpty then none
      else
        match (l2.dropWhile isWordChar).dropWhile isPySpace with
        | '=' :: l3 =>
          let l4 := l3.dropWhile isPySpace
          let value := l4.takeWhile (fun c => c ≠ ';')
          if value.isEmpty then none
          else
            match l4.dropWhile (fun c => c ≠ ';') with
            | ';' :: l5 => some (vname, value, l5)
            | _ => none
        | _ => none

/-- Scanning loop of `re.findall` for the assignment regex: collect
non-overlapping matches left to right. -/
def findAssignsGo : Nat → List Char → List (List Char × List Char)
  | 0, _ => []
  | _ + 1, [] => []
  | fuel + 1, c :: rest =>
    match matchAssignAt (c :: rest) with
    | some (vname, value, l2) => (vname, value) :: findAssignsGo fuel l2
    | none => findAssignsGo fuel rest

/-- `re.findall((?:var|string|int)\s+(\w+)\s*=\s*([^;]+);, code)`. -/
def findAssignments (l : List Char) : List (List Char × List Char) :=
  findAssignsGo l.length l

/-- `RazorToJSXConverter._convert_code_block`, applied to the text of the
first capture group of `@\x7b([^\x7d]+)\x7d`: strip the code; when it
contains a declaration keyword and assignments are found, emit `const`
declarations; otherwise emit the TODO marker containing the code. -/
def convertCodeBlock (group1 : List Char) : List Char :=
  let code := pyStrip group1
  if containsSub code "var ".data || containsSub code "string ".data
      || containsSub code "int ".data then
    let assignments := findAssignments code
    if assignments.isEmpty then
      "\x7b/* TODO: Convert code block:\n".data ++ code ++ "\n*/\x7d".data
    else
      let converted := assignments.map
        (fun a => "const ".data ++ a.1 ++ " = ".data ++ a.2 ++ ";".data)
      "\x7b\n  ".data ++ joinSepL "\n  ".data converted ++ "\n\x7d".data
  else
    "\x7b/* TODO: Convert code block:\n".data ++ code ++ "\n*/\x7d".data

/-- The Razor construct used by the loop counterexample. -/
def forLoopInput : String :=
  "<ul>@for (var i = 0; i < 3; i++) \x7b <li>item</li> \x7d</ul>"

/-! # Theorems -/

/-! ## Lemmas about the Type Mapper -/

/-- If no entry of a table matches, the lookup loop returns the default. -/
theorem mapTypeAux_default (table : List (String × String × String))
    (t : List Char) (h : ∀ e ∈ table, containsSub t e.1.data = false) :
    mapTypeAux table t = ("str", "String") := by
  induction table with
  | nil => rfl
  | cons e rest ih =>
    obtain ⟨k, py, sa⟩ := e
    have hk := h (k, py, sa) (List.mem_cons_self _ _)
    simp only [mapTypeAux, hk, Bool.false_eq_true, if_false]
    exact ih fun e he => h e (List.mem_cons_of_mem _ he)

/-- The lookup loop returns the entry of the first matching key. -/
theorem mapTypeAux_first_match (pre post : List (String × String × String))
    (k py sa : String) (t : List Char)
    (hpre : ∀ e ∈ pre, containsSub t e.1.data = false)
    (hk : containsSub t k.data = true) :
    mapTypeAux (pre ++ (k, py, sa) :: post) t = (py, sa) := by
  induction pre with
  | nil => simp [mapTypeAux, hk]
  | cons e rest ih =>
    obtain ⟨k0, py0, sa0⟩ := e
    have h0 := hpre (k0, py0, sa0) (List.mem_cons_self _ _)
    simp only [List.cons_append, mapTypeAux, h0]
    simp only [Bool.false_eq_true, if_false]
    exact ih fun e he => hpre e (List.mem_cons_of_mem _ he)

/-- Every pair the lookup loop can return has non-empty components,
provided the table entries do. -/
theorem mapTypeAux_ne_empty (table : List (String × String × String))
    (t : List Char) (h : ∀ e ∈ table, e.2.1 ≠ "" ∧ e.2.2 ≠ "") :
    (mapTypeAux table t).1 ≠ "" ∧ (mapTypeAux table t).2 ≠ "" := by
  induction table with
  | nil => exact ⟨by simp only [mapTypeAux]; decide, by simp only [mapTypeAux]; decide⟩
  | cons e rest ih =>
    obtain ⟨k, py, sa⟩ := e
    simp only [mapTypeAux]
    by_cases hc : containsSub t k.data
    · simpa [hc] using h (k, py, sa) (List.mem_cons_self _ _)
    · simp only [hc, if_false, Bool.false_eq_true]
      exact ih fun e he => h e (List.mem_cons_of_mem _ he)

/-- C1: the type mapping function is total: it always returns a pair with
non-empty scalar and storage components; when no table key occurs in the
lowered token it returns the default `("str", "String")`; and each of the
twelve fixed table entries maps to its documented pair exactly — in
particular `long` maps to `BigInteger`, not the generic `Integer`. -/
theorem map_type_total_and_exact :
    (∀ t : String,
        (∀ e ∈ TYPE_MAPPINGS, containsSub (pyLower t).data e.1.data = false) →
        mapType t = ("str", "String"))
    ∧ (mapType "string" = ("str", "String")
        ∧ mapType "int" = ("int", "Integer")
        ∧ mapType "long" = ("int", "BigInteger")
        ∧ mapType "bool" = ("bool", "Boolean")
        ∧ mapType "DateTime" = ("datetime", "DateTime")
        ∧ mapType "decimal" = ("Decimal", "Numeric")
        ∧ mapType "float" = ("float", "Float")
        ∧ mapType "double" = ("float", "Float")
        ∧ mapType "Guid" = ("str", "String(36)")
        ∧ mapType "byte[]" = ("bytes", "LargeBinary")
        ∧ mapType "short" = ("int", "SmallInteger")
        ∧ mapType "byte" = ("int", "SmallInteger"))
    ∧ (∀ t : String, (mapType t).1 ≠ "" ∧ (mapType t).2 ≠ "") := by
  refine ⟨fun t h => mapTypeAux_default _ _ h, by decide, fun t => ?_⟩
  exact mapTypeAux_ne_empty _ _ (by decide)

/-- Witness for `map_type_total_and_exact`: the token `Foo` matches no
table key, hence gets the default pair. -/
theorem map_type_total_and_exact_witness :
    (∀ e ∈ TYPE_MAPPINGS, containsSub (pyLower "Foo").data e.1.data = false)
    ∧ mapType "Foo" = ("str", "String") :=
  ⟨by decide, map_type_total_and_exact.1 "Foo" (by decide)⟩

/-- C10: type mapping matches by case-insensitive substring containment
in table iteration order: if the table splits as `pre ++ (k, py, sa) :: post`
where no key of `pre` occurs in the lowered token but `k` does, the result
is `(py, sa)`; e.g. the unknown token `Point` contains `int` and maps to
`("int", "Integer")` rather than the default. -/
theorem map_type_substring_containment :
    (∀ (t : String) (pre post : List (String × String × String))
        (k py sa : String),
        TYPE_MAPPINGS = pre ++ (k, py, sa) :: post →
        (∀ e ∈ pre, containsSub (pyLower t).data e.1.data = false) →
        containsSub (pyLower t).data k.data = true →
        mapType t = (py, sa))
    ∧ mapType "Point" = ("int", "Integer") := by
  refine ⟨fun t pre post k py sa htab hpre hk => ?_, by decide⟩
  unfold mapType
  rw [htab]
  exact mapTypeAux_first_match pre post k py sa _ hpre hk

/-- Witness for `map_type_substring_containment`: instantiated at the
token `Point`, whose lowering contains the key `int` but not `string`. -/
theorem map_type_substring_containment_witness :
    (∀ e ∈ [(("string" : String), ("str" : String), ("String" : String))],
        containsSub (pyLower "Point").data e.1.data = false)
    ∧ containsSub (pyLower "Point").data "int".data = true
    ∧ mapType "Point" = ("int", "Integer") :=
  ⟨by decide, by decide,
    map_type_substring_containment.1 "Point"
      [("string", "str", "String")]
      [ ("long", "int", "BigInteger"), ("bool", "bool", "Boolean")
      , ("datetime", "datetime", "DateTime"), ("decimal", "Decimal", "Numeric")
      , ("float", "float", "Float"), ("double", "float", "Float")
      , ("guid", "str", "String(36)"), ("byte[]", "bytes", "LargeBinary")
      , ("short", "int", "SmallInteger"), ("byte", "int", "SmallInteger")]
      "int" "int" "Integer" (by decide) (by decide) (by decide)⟩

/-! ## Lemmas about case conversion -/

/-- ASCII lowering never produces an upper-case letter. -/
theorem toLower_not_upper (c : Char) : isUpperChar (Char.toLower c) = false := by
  show isUpperChar (if c.toNat ≥ 65 ∧ c.toNat ≤ 90 then Char.ofNat (c.toNat + 32) else c) = false
  split
  case isTrue h =>
    obtain ⟨h1, h2⟩ := h
    generalize hg : c.toNat = n at h1 h2 ⊢
    interval_cases n <;> decide
  case isFalse h =>
    simp only [isUpperChar, decide_eq_false_iff_not]
    exact fun hc => h ⟨hc.1, hc.2⟩

/-- ASCII lowering fixes characters that are not upper-case letters. -/
theorem toLower_eq_self_of_not_upper (c : Char) (h : isUpperChar c = false) :
    Char.toLower c = c := by
  show (if c.toNat ≥ 65 ∧ c.toNat ≤ 90 then Char.ofNat (c.toNat + 32) else c) = c
  rw [if_neg]
  intro hc
  simp only [isUpperChar, decide_eq_false_iff_not] at h
  exact h ⟨hc.1, hc.2⟩

/-- The first snake-case pass is the identity on strings without
upper-case letters (its pattern requires an upper-case letter). -/
theorem snakeSub1Go_of_no_upper (fuel : Nat) (l : List Char)
    (h : ∀ x ∈ l, isUpperChar x = false) : snakeSub1Go fuel l = l := by
  induction fuel generalizing l with
  | zero => rfl
  | succ fuel ih =>
    cases l with
    | nil => rfl
    | cons c t =>
      cases t with
      | nil => rfl
      | cons u rest =>
        have hu : isUpperChar u = false := h u (by simp)
        simp only [snakeSub1Go, hu, Bool.and_false, Bool.false_and, if_false,
          Bool.false_eq_true]
        exact congrArg (c :: ·) (ih (u :: rest) fun x hx => h x (List.mem_cons_of_mem _ hx))

/-- The first snake-case pass is the identity on strings without
upper-case letters (its pattern requires an upper-case letter). -/
theorem snakeSub1_of_no_upper (l : List Char)
    (h : ∀ x ∈ l, isUpperChar x = false) : snakeSub1 l = l :=
  snakeSub1Go_of_no_upper l.length l h

/-- The second snake-case pass is the identity on strings without
upper-case letters. -/
theorem snakeSub2_of_no_upper (l : List Char)
    (h : ∀ x ∈ l, isUpperChar x = false) : snakeSub2 l = l := by
  induction l with
  | nil => rfl
  | cons c t ih =>
    cases t with
    | nil => rfl
    | cons u rest =>
      have hu : isUpperChar u = false := h u (by simp)
      rw [snakeSub2]
      simp only [hu, Bool.and_false, if_false, Bool.false_eq_true]
      exact congrArg (c :: ·) (ih fun x hx => h x (List.mem_cons_of_mem _ hx))

/-- Characterwise lowering is the identity on strings without upper-case
letters. -/
theorem map_toLower_of_no_upper (l : List Char)
    (h : ∀ x ∈ l, isUpperChar x = false) : l.map Char.toLower = l := by
  induction l with
  | nil => rfl
  | cons c t ih =>
    simp only [List.map_cons]
    rw [toLower_eq_self_of_not_upper c (h c (by simp)),
      ih fun x hx => h x (List.mem_cons_of_mem _ hx)]

/-- C4: the PascalCase-to-snake_case conversion is idempotent: applying
`toSnakeCase` to its own output returns the output unchanged, because the
output contains no upper-case letters and every rewrite of either
substitution pass requires one. -/
theorem to_snake_case_idempotent (name : String) :
    toSnakeCase (toSnakeCase name) = toSnakeCase name := by
  unfold toSnakeCase
  have hno : ∀ x ∈ (snakeSub2 (snakeSub1 name.data)).map Char.toLower,
      isUpperChar x = false := by
    intro x hx
    obtain ⟨y, _, rfl⟩ := List.mem_map.mp hx
    exact toLower_not_upper y
  show (⟨(snakeSub2 (snakeSub1 ((snakeSub2 (snakeSub1 name.data)).map Char.toLower))).map Char.toLower⟩ : String) = _
  rw [snakeSub1_of_no_upper _ hno, snakeSub2_of_no_upper _ hno,
    map_toLower_of_no_upper _ hno]

example : toSnakeCase "OrderItem" = "order_item" := by decide
example : toSnakeCase "CustomerID" = "customer_id" := by decide

/-! ## Lemmas about the Relationship Resolver -/

/-- C3: a bare entity-typed (non-primitive, non-collection) property whose
name ends in the foreign-key suffix `Id` produces no relationship record,
while an equivalently-typed property with any other name produces a
many-to-one record pointing at that type name, and that record appears in
the output of `_parse_relationships`. -/
theorem relationship_fk_suffix_rule (type_name prop_name : String)
    (hprim : primitiveSkip.contains type_name = false) :
    (endsWithL prop_name.data "Id".data = true →
      refRelationship type_name prop_name = none)
    ∧ (endsWithL prop_name.data "Id".data = false →
      refRelationship type_name prop_name
          = some ⟨"many_to_one", type_name, prop_name⟩
        ∧ ∀ collectionDecls refDecls : List (String × String),
            (type_name, prop_name) ∈ refDecls →
            (⟨"many_to_one", type_name, prop_name⟩ : RelRecord)
              ∈ parseRelationships collectionDecls refDecls) := by
  constructor
  · intro hend
    have hmem : type_name ∉ primitiveSkip := by simpa using hprim
    simp [refRelationship, hprim, hmem, hend]
  · intro hend
    have hmem : type_name ∉ primitiveSkip := by simpa using hprim
    have h1 : refRelationship type_name prop_name
        = some ⟨"many_to_one", type_name, prop_name⟩ := by
      simp [refRelationship, hprim, hmem, hend]
    refine ⟨h1, fun colls refs hmem => ?_⟩
    unfold parseRelationships
    refine List.mem_append_right _ ?_
    exact List.mem_filterMap.mpr ⟨(type_name, prop_name), hmem, h1⟩

/-- Witness for `relationship_fk_suffix_rule`: the type `Customer` is not
primitive; the field `CustomerId` of that type yields no record while the
field `Customer` of the same type yields a many-to-one record. -/
theorem relationship_fk_suffix_rule_witness :
    primitiveSkip.contains "Customer" = false
    ∧ refRelationship "Customer" "CustomerId" = none
    ∧ refRelationship "Customer" "Customer"
        = some ⟨"many_to_one", "Customer", "Customer"⟩ :=
  ⟨by decide,
    (relationship_fk_suffix_rule "Customer" "CustomerId" (by decide)).1 (by decide),
    ((relationship_fk_suffix_rule "Customer" "Customer" (by decide)).2 (by decide)).1⟩

/-! ## Lemmas about string concatenation and the writers -/

/-- Concatenation distributes over list append. -/
theorem strConcat_append (a b : List String) :
    strConcat (a ++ b) = strConcat a ++ strConcat b := by
  induction a with
  | nil => simp [strConcat, String.empty_append]
  | cons s t ih => simp [strConcat, ih, String.append_assoc]

/-- An accumulating write loop appends the concatenation of the rendered
items to its initial accumulator. -/
theorem foldl_append_eq {α : Type} (f : α → String) (l : List α) (init : String) :
    l.foldl (fun acc x => acc ++ f x) init = init ++ strConcat (l.map f) := by
  induction l generalizing init with
  | nil => simp [strConcat, String.append_empty]
  | cons a t ih => simp [strConcat, ih, String.append_assoc]

/-- A filtered accumulating write loop appends the concatenation of the
renderings of the items that pass the filter. -/
theorem foldl_filter_append_eq {α : Type} (f : α → String) (cond : α → Bool)
    (l : List α) (init : String) :
    l.foldl (fun acc x => if cond x then acc ++ f x else acc) init
      = init ++ strConcat (l.filterMap fun x => if cond x then some (f x) else none) := by
  induction l generalizing init with
  | nil => simp [strConcat, String.append_empty]
  | cons a t ih =>
    by_cases h : cond a
    · simp [h, ih, strConcat, String.append_assoc, List.filterMap_cons]
    · simp [h, ih, List.filterMap_cons]

/-- Normal form of the SQLAlchemy model writer: header, then the property
lines in property order, then the relationship block, then the trailing
blank lines. -/
theorem writeSqlalchemyModel_eq (model : ModelInfo) :
    writeSqlalchemyModel model
      = sqlHeader model ++ (strConcat (model.properties.map sqlFieldLine)
          ++ (sqlRelPart model ++ "\n\n")) := by
  unfold writeSqlalchemyModel sqlRelPart
  by_cases h : model.relationships.isEmpty
  · simp [h, foldl_append_eq, String.append_assoc, String.append_empty]
  · simp [h, foldl_append_eq, String.append_assoc]

/-- Normal form of the Django model writer: header, then the lines of the
properties that pass the id-key filter in property order, then the Meta
block, then the trailing blank lines. -/
theorem writeDjangoModel_eq (model : ModelInfo) :
    writeDjangoModel model
      = djangoHeader model ++ (strConcat (model.properties.filterMap djangoFieldOpt)
          ++ (djangoMeta model ++ "\n\n")) := by
  unfold writeDjangoModel djangoFieldOpt
  simp only [foldl_filter_append_eq djangoFieldLine
    (fun p => !p.is_key || (pyLower p.name != "id")), String.append_assoc]

/-- Splitting the concatenation of the kept renderings of a list around
two kept positions `i < j`. -/
theorem strConcat_filterMap_two_split {α : Type} (f : α → Option String) (l : List α)
    (i j : Nat) (hi : i < l.length) (hj : j < l.length) (hij : i < j)
    (sA sB : String) (hA : f l[i] = some sA) (hB : f l[j] = some sB) :
    ∃ pre mid post,
      strConcat (l.filterMap f) = pre ++ (sA ++ (mid ++ (sB ++ post))) := by
  have hlen : j - i - 1 < (l.drop (i + 1)).length := by
    simp only [List.length_drop]
    omega
  have helem : (l.drop (i + 1))[j - i - 1] = l[j] := by
    rw [List.getElem_drop]
    simp only [show i + 1 + (j - i - 1) = j by omega]
  have hdrop : (l.drop (i + 1)).drop (j - i - 1 + 1) = l.drop (j + 1) := by
    rw [List.drop_drop]
    simp only [show i + 1 + (j - i - 1 + 1) = j + 1 by omega]
  have hd : l = l.take i ++ l[i]
      :: ((l.drop (i + 1)).take (j - i - 1) ++ l[j] :: l.drop (j + 1)) := by
    conv_lhs => rw [← List.take_append_drop i l]
    rw [List.drop_eq_getElem_cons hi]
    congr 1
    congr 1
    conv_lhs => rw [← List.take_append_drop (j - i - 1) (l.drop (i + 1))]
    rw [List.drop_eq_getElem_cons hlen, helem, hdrop]
  refine ⟨strConcat ((l.take i).filterMap f),
    strConcat (((l.drop (i + 1)).take (j - i - 1)).filterMap f),
    strConcat ((l.drop (j + 1)).filterMap f), ?_⟩
  conv_lhs => rw [hd]
  rw [List.filterMap_append, List.filterMap_cons_some hA, List.filterMap_append,
    List.filterMap_cons_some hB, strConcat_append]
  simp [strConcat, strConcat_append, String.append_assoc]

/-- Splitting the concatenation of rendered items around one list member. -/
theorem strConcat_mem_split {α : Type} (f : α → String) (l : List α) (a : α)
    (ha : a ∈ l) : ∃ u v, strConcat (l.map f) = u ++ (f a ++ v) := by
  obtain ⟨s, t, rfl⟩ := List.append_of_mem ha
  refine ⟨strConcat (s.map f), strConcat (t.map f), ?_⟩
  simp [List.map_append, strConcat_append, strConcat, String.append_assoc]

/-- C5: the generated artifact text renders fields in their discovery
order — for positions `i < j` in the property list, the rendering of
property `i` appears strictly before the rendering of property `j` — and
in the SQLAlchemy profile every relationship rendering appears after all
field renderings; in the Django profile the same order holds for every
pair of properties that pass the id-key filter. -/
theorem generated_field_order_preserved (model : ModelInfo) (i j : Nat)
    (hi : i < model.properties.length) (hj : j < model.properties.length)
    (hij : i < j) :
    (∃ pre mid post,
        writeSqlalchemyModel model
          = pre ++ (sqlFieldLine model.properties[i]
              ++ (mid ++ (sqlFieldLine model.properties[j] ++ post)))
        ∧ ∀ r ∈ model.relationships, ∃ u v, post = u ++ (sqlRelLine r ++ v))
    ∧ (∀ sA sB : String, djangoFieldOpt model.properties[i] = some sA →
        djangoFieldOpt model.properties[j] = some sB →
        ∃ pre mid post,
          writeDjangoModel model = pre ++ (sA ++ (mid ++ (sB ++ post)))) := by
  constructor
  · obtain ⟨pre, mid, post, hsplit⟩ :=
      strConcat_filterMap_two_split (some ∘ sqlFieldLine) model.properties i j hi hj hij
        (sqlFieldLine model.properties[i]) (sqlFieldLine model.properties[j]) rfl rfl
    rw [List.filterMap_eq_map] at hsplit
    refine ⟨sqlHeader model ++ pre, mid, post ++ (sqlRelPart model ++ "\n\n"), ?_, ?_⟩
    · rw [writeSqlalchemyModel_eq, hsplit]
      simp only [String.append_assoc]
    · intro r hr
      have hne : model.relationships.isEmpty = false := by
        cases hrel : model.relationships with
        | nil => rw [hrel] at hr; cases hr
        | cons a t => simp
      obtain ⟨u, v, huv⟩ := strConcat_mem_split sqlRelLine model.relationships r hr
      refine ⟨post ++ ("\n" ++ u), v ++ "\n\n", ?_⟩
      simp only [sqlRelPart, hne, Bool.false_eq_true, if_false, huv,
        String.append_assoc]
  · intro sA sB hA hB
    obtain ⟨pre, mid, post, hsplit⟩ :=
      strConcat_filterMap_two_split djangoFieldOpt model.properties i j hi hj hij
        sA sB hA hB
    refine ⟨djangoHeader model ++ pre, mid, post ++ (djangoMeta model ++ "\n\n"), ?_⟩
    rw [writeDjangoModel_eq, hsplit]
    simp only [String.append_assoc]

/-- Concrete model used by the order-preservation witness: the entity
`Order` with fields `Id`, `Total`, `CustomerName` and one relationship. -/
def orderSampleModel : ModelInfo :=
  { name := "Order"
  , namespace_ := "Shop.Models"
  , properties :=
      [ { name := "Id", csharp_type := "int", python_type := "int", is_key := true }
      , { name := "Total", csharp_type := "decimal", python_type := "Decimal" }
      , { name := "CustomerName", csharp_type := "string", python_type := "str" } ]
  , relationships := [⟨"many_to_one", "Customer", "Customer"⟩] }

/-- Witness for `generated_field_order_preserved`, instantiated at the
first and third properties of `orderSampleModel`. -/
theorem generated_field_order_preserved_witness :
    0 < orderSampleModel.properties.length
    ∧ 2 < orderSampleModel.properties.length
    ∧ 0 < 2
    ∧ ((∃ pre mid post,
          writeSqlalchemyModel orderSampleModel
            = pre ++ (sqlFieldLine orderSampleModel.properties[0]
                ++ (mid ++ (sqlFieldLine orderSampleModel.properties[2] ++ post)))
          ∧ ∀ r ∈ orderSampleModel.relationships,
              ∃ u v, post = u ++ (sqlRelLine r ++ v))
      ∧ (∀ sA sB : String, djangoFieldOpt orderSampleModel.properties[0] = some sA →
          djangoFieldOpt orderSampleModel.properties[2] = some sB →
          ∃ pre mid post,
            writeDjangoModel orderSampleModel = pre ++ (sA ++ (mid ++ (sB ++ post))))) :=
  ⟨by decide, by decide, by decide,
    generated_field_order_preserved orderSampleModel 0 2 (by decide) (by decide)
      (by decide)⟩

/-- C9: in the Django profile a key property whose lowercased name is
exactly `id` is omitted from the rendered field list, every other
property (including key properties with any other name) is rendered, and
the writer output consists of exactly the renderings of the properties
passing that filter, in order. -/
theorem django_id_key_field_omitted :
    (∀ p : PropertyInfo, p.is_key = true → pyLower p.name = "id" →
      djangoFieldOpt p = none)
    ∧ (∀ p : PropertyInfo, p.is_key = false ∨ pyLower p.name ≠ "id" →
      djangoFieldOpt p = some (djangoFieldLine p))
    ∧ (∀ model : ModelInfo,
      writeDjangoModel model
        = djangoHeader model ++ (strConcat (model.properties.filterMap djangoFieldOpt)
            ++ (djangoMeta model ++ "\n\n"))) := by
  refine ⟨fun p hk hid => ?_, fun p h => ?_, writeDjangoModel_eq⟩
  · simp [djangoFieldOpt, hk, hid]
  · rcases h with h | h
    · simp [djangoFieldOpt, h]
    · simp [djangoFieldOpt, h]

/-- Witness for `django_id_key_field_omitted`: the key property `Id` is
omitted while the key property `Key` is rendered. -/
theorem django_id_key_field_omitted_witness :
    ({ name := "Id", csharp_type := "int", python_type := "int",
        is_key := true } : PropertyInfo).is_key = true
    ∧ pyLower "Id" = "id"
    ∧ djangoFieldOpt
        { name := "Id", csharp_type := "int", python_type := "int", is_key := true }
        = none
    ∧ djangoFieldOpt
        { name := "Key", csharp_type := "int", python_type := "int", is_key := true }
        = some (djangoFieldLine
            { name := "Key", csharp_type := "int", python_type := "int", is_key := true }) :=
  ⟨rfl, by decide,
    django_id_key_field_omitted.1 _ rfl (by decide),
    django_id_key_field_omitted.2.1 _ (Or.inr (by decide))⟩

/-! ## Lemmas about route verb extraction -/

/-- C6: the HTTP verb of an extracted action is determined by searching
the enclosing text for verb markers in the fixed priority order POST,
then PUT, then DELETE — the first pattern that matches anywhere in the
text wins, regardless of later patterns — and defaults to GET when no
marker pattern matches. -/
theorem http_verb_priority_order (content methodName : String) :
    (verbSearch "Post".data methodName.data content.data = true →
      extractHttpMethod content methodName = "POST")
    ∧ (verbSearch "Post".data methodName.data content.data = false →
      verbSearch "Put".data methodName.data content.data = true →
      extractHttpMethod content methodName = "PUT")
    ∧ (verbSearch "Post".data methodName.data content.data = false →
      verbSearch "Put".data methodName.data content.data = false →
      verbSearch "Delete".data methodName.data content.data = true →
      extractHttpMethod content methodName = "DELETE")
    ∧ (verbSearch "Post".data methodName.data content.data = false →
      verbSearch "Put".data methodName.data content.data = false →
      verbSearch "Delete".data methodName.data content.data = false →
      extractHttpMethod content methodName = "GET") := by
  unfold extractHttpMethod
  refine ⟨fun h1 => by simp [h1],
    fun h1 h2 => by simp [h1, h2],
    fun h1 h2 h3 => by simp [h1, h2, h3],
    fun h1 h2 h3 => by simp [h1, h2, h3]⟩

/-- Controller text used by the verb-priority witness: the POST and PUT
patterns both match for the action name `Create`. -/
def verbSampleContent : String :=
  "[HttpPut(\"a\")] [HttpPost(\"b\")] public Task Create()"

/-- Witness for `http_verb_priority_order`: on `verbSampleContent` both
the POST and the PUT pattern match for `Create`, and POST wins. -/
theorem http_verb_priority_order_witness :
    verbSearch "Post".data "Create".data verbSampleContent.data = true
    ∧ verbSearch "Put".data "Create".data verbSampleContent.data = true
    ∧ extractHttpMethod verbSampleContent "Create" = "POST" :=
  ⟨by decide, by decide,
    (http_verb_priority_order verbSampleContent "Create").1 (by decide)⟩

/-! ## Lemmas about per-file read errors -/

/-- C7 counterexample: a permission error raised by `read_text` inside
`_scan_models` is not converted to an empty result — with a single
unreadable file the scan yields an exception and no result at all,
contradicting the claim that per-file read errors are never propagated. -/
theorem scan_read_error_propagates :
    scanModelsReads [FileRead.err "Permission denied"]
        = Except.error "Permission denied"
    ∧ ∀ contents : List String,
        scanModelsReads [FileRead.err "Permission denied"] ≠ Except.ok contents := by
  refine ⟨rfl, fun contents h => ?_⟩
  simp [scanModelsReads, readText] at h

/-- C7 (amended): in the assessment tool, `_read_file` catches stat and
open/read errors and converts them — like oversized files — to the empty
result; but in the migration generator, `_scan_models` reads each file
with no per-file handler, so the first read error propagates out of the
scan loop (aborting the run), no matter how many files were already read
successfully. -/
theorem per_file_read_error_handling (msg : String) (size : Nat)
    (content : String) :
    assessorReadFile (.statErr msg) = ""
    ∧ assessorReadFile (.openErr size msg) = ""
    ∧ (size > MAX_FILE_SIZE_BYTES → assessorReadFile (.readable size content) = "")
    ∧ ∀ (goodContents : List String) (rest : List FileRead),
        scanModelsReads (goodContents.map FileRead.ok ++ FileRead.err msg :: rest)
          = Except.error msg := by
  refine ⟨rfl, rfl, fun h => by simp [assessorReadFile, h], fun good rest => ?_⟩
  induction good with
  | nil => rfl
  | cons c t ih => simp [scanModelsReads, readText, ih]

/-- Witness for `per_file_read_error_handling`: a stat failure and an
oversized file read as empty by the assessor; one successful read
followed by a permission error propagating out of the generator scan. -/
theorem per_file_read_error_handling_witness :
    assessorReadFile (.statErr "EACCES") = ""
    ∧ 1048577 > MAX_FILE_SIZE_BYTES
    ∧ assessorReadFile (.readable 1048577 "x") = ""
    ∧ scanModelsReads [FileRead.ok "class A", FileRead.err "EACCES"]
        = Except.error "EACCES" :=
  ⟨(per_file_read_error_handling "EACCES" 1048577 "x").1,
    by decide,
    (per_file_read_error_handling "EACCES" 1048577 "x").2.2.1 (by decide),
    (per_file_read_error_handling "EACCES" 1048577 "x").2.2.2 ["class A"] []⟩

/-! ## Lemmas about configuration errors -/

/-- C8: an invalid target-framework selection (lowered value outside the
closed set) is fatal at construction, before any file is read: the run
yields the `ValueError` message, independent of the file list, and never
an ok result — so no model is built and no artifact content produced. -/
theorem invalid_framework_fatal (models_path target_framework output_dir : String)
    (files : List FileRead)
    (h1 : pyLower target_framework ≠ "sqlalchemy")
    (h2 : pyLower target_framework ≠ "django") :
    generatorRun models_path target_framework output_dir files
        = Except.error ("Unsupported framework: " ++ target_framework
            ++ ". Use \x27sqlalchemy\x27 or \x27django\x27")
    ∧ ∀ result : List String,
        generatorRun models_path target_framework output_dir files
          ≠ Except.ok result := by
  have hcond : (pyLower target_framework != "sqlalchemy"
      && pyLower target_framework != "django") = true := by
    simp [bne_iff_ne, h1, h2]
  have hmain : generatorRun models_path target_framework output_dir files
      = Except.error ("Unsupported framework: " ++ target_framework
          ++ ". Use \x27sqlalchemy\x27 or \x27django\x27") := by
    unfold generatorRun mkMigrationGenerator
    simp [hcond]
  exact ⟨hmain, fun result h => by rw [hmain] at h; exact Except.noConfusion h⟩

/-- Witness for `invalid_framework_fatal`: the framework `rails` is
rejected with the `ValueError` message even though a readable model file
is available. -/
theorem invalid_framework_fatal_witness :
    pyLower "rails" ≠ "sqlalchemy"
    ∧ pyLower "rails" ≠ "django"
    ∧ generatorRun "/models" "rails" "./out" [FileRead.ok "class A"]
        = Except.error ("Unsupported framework: " ++ "rails"
            ++ ". Use \x27sqlalchemy\x27 or \x27django\x27") :=
  ⟨by decide, by decide,
    (invalid_framework_fatal "/models" "rails" "./out" [FileRead.ok "class A"]
      (by decide) (by decide)).1⟩

/-! ## Lemmas about the Razor converter -/

/-- C2 counterexample: `_convert_loops` replaces a `@for` construct by
the fixed marker comment only — the original construct text does not
appear anywhere in the generated output, so the claim that every
unconvertible construct appears verbatim in the output fails here. -/
theorem for_loop_text_dropped :
    convertLoops forLoopInput = "<ul>/* TODO: Convert @for loop to JSX */</ul>"
    ∧ containsS (convertLoops forLoopInput)
        "@for (var i = 0; i < 3; i++) \x7b <li>item</li> \x7d" = false :=
  ⟨by decide, by decide⟩

/-- C2 (amended): unconvertible constructs are never silently omitted —
an explicit marker comment appears in the output — but only complex code
blocks keep their original text: `_convert_code_block` wraps the
stripped block text verbatim in its TODO marker whenever no declaration
keyword occurs in it, while `_convert_loops` replaces a `@for` loop by a
fixed marker that does not include the loop text. -/
theorem unconvertible_constructs_marked (group1 : List Char)
    (h1 : containsSub (pyStrip group1) "var ".data = false)
    (h2 : containsSub (pyStrip group1) "string ".data = false)
    (h3 : containsSub (pyStrip group1) "int ".data = false) :
    convertCodeBlock group1
        = "\x7b/* TODO: Convert code block:\n".data ++ pyStrip group1
          ++ "\n*/\x7d".data
    ∧ containsS (convertLoops forLoopInput)
        "/* TODO: Convert @for loop to JSX */" = true := by
  constructor
  · simp [convertCodeBlock, h1, h2, h3]
  · decide

/-- Witness for `unconvertible_constructs_marked`: a condition-only code
block, kept verbatim inside the marker. -/
theorem unconvertible_constructs_marked_witness :
    containsSub (pyStrip " if (x) doIt(); ".data) "var ".data = false
    ∧ containsSub (pyStrip " if (x) doIt(); ".data) "string ".data = false
    ∧ containsSub (pyStrip " if (x) doIt(); ".data) "int ".data = false
    ∧ (convertCodeBlock " if (x) doIt(); ".data
        = "\x7b/* TODO: Convert code block:\n".data
          ++ pyStrip " if (x) doIt(); ".data ++ "\n*/\x7d".data
      ∧ containsS (convertLoops forLoopInput)
          "/* TODO: Convert @for loop to JSX */" = true) :=
  ⟨by decide, by decide, by decide,
    unconvertible_constructs_marked " if (x) doIt(); ".data
      (by decide) (by decide) (by decide)⟩

/-! ## Concrete cross-checks of the embedding against the source
behaviour (each equals the output of the corresponding Python code) -/

example : toSnakeCase "HTMLParser5" = "html_parser5" := by decide
example : toSnakeCase "AbC" = "ab_c" := by decide
example : toSnakeCase "aBCDe" = "a_bc_de" := by decide
example : toSnakeCase "Order2Item" = "order2_item" := by decide
example : toSnakeCase "Already_snake" = "already_snake" := by decide
example : toSnakeCase "X" = "x" := by decide
example : toSnakeCase "" = "" := by decide

example :
    convertLoops "<p>@foreach (var it in Model.Items) \x7b <b>hi</b> \x7d</p>"
      = "<p>\x7b(Model.Items || []).map((it, index) => (\n  <div key=\x7bindex\x7d>\n    <b>hi</b>\n  </div>\n))\x7d</p>" := by
  decide

example :
    convertLoops "@foreach (x in ys) \x7b A \x7d"
      = "\x7b(ys || []).map((x, index) => (\n  <div key=\x7bindex\x7d>\n    A\n  </div>\n))\x7d" := by
  decide

example :
    convertCodeBlock "var x = 1; int y = 2;".data
      = "\x7b\n  const x = 1;\n  const y = 2;\n\x7d".data := by decide

example :
    convertCodeBlock "var foo(); doStuff();".data
      = "\x7b/* TODO: Convert code block:\nvar foo(); doStuff();\n*/\x7d".data := by
  decide

example :
    extractHttpMethod "[HttpDelete(\"a\")]\npublic Task Remove()" "Remove"
      = "DELETE" := by decide

example : extractHttpMethod "public Task Index()" "Index" = "GET" := by decide
